import Mathlib

/-!
Shallow embedding of the notebook
`Analyzing_HTAN_spatial_data_with_BigQuery_geospatial_analytics.ipynb`.

The notebook issues a fixed sequence of BigQuery SQL queries against the
table `isb-cgc-bq.HTAN.imaging_level4_HMS_mel_mask_current`.  Each query is
embedded here as a Lean function on lists of rows; SQL `FLOAT64` columns are
modelled as exact rationals, and the external geospatial primitives
(`ST_Distance`, `ST_CLUSTERDBSCAN`) are parameters of the query functions,
constrained only by the properties the theorems need.  The local Python
control flow (authentication, query submission, result retrieval) is
embedded as a concrete list of pipeline steps.
-/

namespace HTANSpatial

/-- One row of the source table
`isb-cgc-bq.HTAN.imaging_level4_HMS_mel_mask_current`, restricted to the
columns the notebook references: cell id, centroid pixel coordinates, the
three marker-intensity columns used for labeling, and the biospecimen id. -/
structure Cell where
  CellID : Nat
  X_centroid : ℚ
  Y_centroid : ℚ
  SOX10_cellRingMask : ℚ
  S100B_cellRingMask : ℚ
  CD63_cellRingMask : ℚ
  HTAN_Biospecimen_ID : String
deriving DecidableEq

/-- The marker threshold condition of the notebook queries:
`SOX10_cellRingMask > 3704.5 AND (S100B_cellRingMask > 7589.48 OR
CD63_cellRingMask > 570.68)`. -/
def tumorMarkersHold (c : Cell) : Prop :=
  c.SOX10_cellRingMask > 3704.5 ∧
    (c.S100B_cellRingMask > 7589.48 ∨ c.CD63_cellRingMask > 570.68)

instance (c : Cell) : Decidable (tumorMarkersHold c) := by
  unfold tumorMarkersHold; infer_instance

/-- The `celltype` expression of the classification query (notebook section
4.1): `IF ( SOX10_cellRingMask > 3704.5 AND (S100B_cellRingMask > 7589.48 OR
CD63_cellRingMask > 570.68 ), "Tumor", "Other" )`. -/
def celltype_classification (c : Cell) : String :=
  if c.SOX10_cellRingMask > 3704.5 ∧
      (c.S100B_cellRingMask > 7589.48 ∨ c.CD63_cellRingMask > 570.68)
  then "Tumor" else "Other"

/-- A row of the classification query result: `CellID, X_centroid,
Y_centroid, celltype`. -/
structure LabeledCell where
  CellID : Nat
  X_centroid : ℚ
  Y_centroid : ℚ
  celltype : String
deriving DecidableEq

/-- The `cells` CTE of the classification query: all rows with
`HTAN_Biospecimen_ID = "HTA7_1_3"`, with the derived `celltype` column. -/
def classification_cells (table : List Cell) : List LabeledCell :=
  (table.filter fun c => decide (c.HTAN_Biospecimen_ID = "HTA7_1_3")).map
    fun c => ⟨c.CellID, c.X_centroid, c.Y_centroid, celltype_classification c⟩

/-- The full classification query (notebook section 4.1): the `cells` CTE
filtered to the rectangle `X_centroid > 23076.9 AND X_centroid < 30384.6 AND
Y_centroid > 9615.3 AND Y_centroid < 15000`. -/
def classificationQuery (table : List Cell) : List LabeledCell :=
  (classification_cells table).filter fun r =>
    decide (23076.9 < r.X_centroid ∧ r.X_centroid < 30384.6 ∧
      9615.3 < r.Y_centroid ∧ r.Y_centroid < 15000)

/-! ### The pairwise-proximity query (notebook section 4.2) -/

/-- A BigQuery `GEOGRAPHY` point, as produced by `ST_GeogPoint(lon, lat)`:
modelled by its two rational arguments. -/
def ST_GeogPoint (lon lat : ℚ) : ℚ × ℚ := (lon, lat)

/-- The type of the external `ST_Distance` primitive: a distance function on
geography points.  The notebook delegates it to BigQuery; theorems assume of
it only what they need (symmetry, zero self-distance). -/
def Dist : Type := ℚ × ℚ → ℚ × ℚ → ℚ

/-- BigQuery `ST_DWithin(p, q, d)`: true when the distance between `p` and
`q` is at most `d`. -/
def ST_DWithin (dist : Dist) (p q : ℚ × ℚ) (d : ℚ) : Bool :=
  decide (dist p q ≤ d)

/-- The distance threshold of the proximity query: `9.29324770787722`
(meters), the image of 20 micrometers under the rescaling. -/
def distanceThreshold : ℚ := 9.29324770787722

/-- The rescaled geography point of a cell, as in the `geodat` CTE:
`ST_GeogPoint(X_centroid/368570, Y_centroid/368570)`. -/
def scaledPoint (c : Cell) : ℚ × ℚ :=
  ST_GeogPoint (c.X_centroid / 368570) (c.Y_centroid / 368570)

/-- The `celltype` expression of the proximity query (`geodat` CTE), written
out separately because it is a second occurrence in the source:
`IF ( SOX10_cellRingMask > 3704.5 AND (S100B_cellRingMask > 7589.48 OR
CD63_cellRingMask > 570.68 ), "Tumor", "Other" )`. -/
def celltype_proximity (c : Cell) : String :=
  if c.SOX10_cellRingMask > 3704.5 ∧
      (c.S100B_cellRingMask > 7589.48 ∨ c.CD63_cellRingMask > 570.68)
  then "Tumor" else "Other"

/-- A row of the `geodat` CTE: `CellID, X_centroid, Y_centroid, celltype, p`. -/
structure GeoCell where
  CellID : Nat
  X_centroid : ℚ
  Y_centroid : ℚ
  celltype : String
  p : ℚ × ℚ
deriving DecidableEq

/-- The row of the `geodat` CTE built from one source row. -/
def geoCell (c : Cell) : GeoCell :=
  ⟨c.CellID, c.X_centroid, c.Y_centroid, celltype_proximity c, scaledPoint c⟩

/-- The `geodat` CTE of the proximity query: all rows with
`HTAN_Biospecimen_ID = "HTA7_1_3"`, each with the derived `celltype` and the
rescaled point `p`. -/
def geodat (table : List Cell) : List GeoCell :=
  (table.filter fun c => decide (c.HTAN_Biospecimen_ID = "HTA7_1_3")).map geoCell

/-- A row of the proximity query output (and hence of the materialized pair
table): the columns of both joined `geodat` rows plus `Distance`. -/
structure PairRow where
  CellID : Nat
  X_centroid : ℚ
  Y_centroid : ℚ
  p : ℚ × ℚ
  celltype : String
  CellID_1 : Nat
  X_centroid_1 : ℚ
  Y_centroid_1 : ℚ
  p_1 : ℚ × ℚ
  celltype_1 : String
  Distance : ℚ
deriving DecidableEq

/-- The output row of the proximity self-join for a pair `(t1, t2)` of
`geodat` rows, with `Distance = ST_Distance(t1.p, t2.p)`. -/
def mkPairRow (dist : Dist) (t1 t2 : GeoCell) : PairRow :=
  ⟨t1.CellID, t1.X_centroid, t1.Y_centroid, t1.p, t1.celltype,
   t2.CellID, t2.X_centroid, t2.Y_centroid, t2.p, t2.celltype,
   dist t1.p t2.p⟩

/-- The pairwise-proximity query: `geodat` self-joined on
`ST_DWithin(t1.p, t2.p, 9.29324770787722)`. -/
def proximityQuery (dist : Dist) (table : List Cell) : List PairRow :=
  (geodat table).flatMap fun t1 =>
    ((geodat table).filter fun t2 =>
        ST_DWithin dist t1.p t2.p distanceThreshold).map
      fun t2 => mkPairRow dist t1 t2

/-- The reversed pair row: the two cells swapped, the `Distance` column
kept. -/
def swapRow (r : PairRow) : PairRow :=
  ⟨r.CellID_1, r.X_centroid_1, r.Y_centroid_1, r.p_1, r.celltype_1,
   r.CellID, r.X_centroid, r.Y_centroid, r.p, r.celltype, r.Distance⟩

/-! ### The neighbor-count aggregation query (notebook section 4.3) -/

/-- The rectangle condition of the `cellp` CTE, applied to the `X_centroid`
and `Y_centroid` columns of a pair row, i.e. the coordinates of the first
(center) cell of the pair. -/
def inRectPair (r : PairRow) : Prop :=
  23076.9 < r.X_centroid ∧ r.X_centroid < 30384.6 ∧
    9615.3 < r.Y_centroid ∧ r.Y_centroid < 15000

instance (r : PairRow) : Decidable (inRectPair r) := by
  unfold inRectPair; infer_instance

/-- The same rectangle condition on a source row. -/
def inRectCell (c : Cell) : Prop :=
  23076.9 < c.X_centroid ∧ c.X_centroid < 30384.6 ∧
    9615.3 < c.Y_centroid ∧ c.Y_centroid < 15000

instance (c : Cell) : Decidable (inRectCell c) := by
  unfold inRectCell; infer_instance

/-- A row of the `cellp` CTE: `CellID, celltype, CellID_1, celltype_1`. -/
structure CellpRow where
  CellID : Nat
  celltype : String
  CellID_1 : Nat
  celltype_1 : String
deriving DecidableEq

/-- The `cellp` CTE of the aggregation query: rows of the materialized pair
table whose (center) coordinates lie in the rectangle, projected to the four
id/label columns. -/
def cellp (ptable : List PairRow) : List CellpRow :=
  (ptable.filter fun r => decide (inRectPair r)).map
    fun r => ⟨r.CellID, r.celltype, r.CellID_1, r.celltype_1⟩

/-- The rows the aggregation query groups: `cellp` restricted by
`WHERE celltype = "Tumor"`. -/
def tumorCenterRows (ptable : List PairRow) : List CellpRow :=
  (cellp ptable).filter fun r => decide (r.celltype = "Tumor")

/-- The aggregation query: `SELECT CellID, COUNTIF(celltype_1 = "Tumor") - 1
AS N_Tumor_Cells FROM cellp WHERE celltype = "Tumor" GROUP BY CellID`.  The
group keys are the distinct `CellID` values of the grouped rows; the count
is an `INT64`, modelled as `ℤ`. -/
def aggregationQuery (ptable : List PairRow) : List (Nat × ℤ) :=
  ((tumorCenterRows ptable).map CellpRow.CellID).dedup.map fun cid =>
    (cid,
      (((tumorCenterRows ptable).filter fun r => decide (r.CellID = cid)).countP
          (fun r => decide (r.celltype_1 = "Tumor")) : ℤ) - 1)

/-! ### The clustering query (notebook section 4.4) -/

/-- The `cells` CTE of the clustering query: rows of `HTA7_1_3` inside the
rectangle whose markers pass the thresholds (`SOX10_cellRingMask > 3704.5
AND (S100B_cellRingMask > 7589.48 OR CD63_cellRingMask > 570.68)`). -/
def clustering_cells (table : List Cell) : List Cell :=
  table.filter fun c =>
    decide (c.HTAN_Biospecimen_ID = "HTA7_1_3" ∧
      23076.9 < c.X_centroid ∧ c.X_centroid < 30384.6 ∧
      9615.3 < c.Y_centroid ∧ c.Y_centroid < 15000 ∧
      c.SOX10_cellRingMask > 3704.5 ∧
      (c.S100B_cellRingMask > 7589.48 ∨ c.CD63_cellRingMask > 570.68))

/-- The column of rescaled points the clustering query hands to the window
function: `ST_GeogPoint(X_centroid/368570, Y_centroid/368570)` of each row
of the `cells` CTE. -/
def clustering_points (table : List Cell) : List (ℚ × ℚ) :=
  (clustering_cells table).map scaledPoint

/-- The type of the external `ST_CLUSTERDBSCAN(p, eps, minPoints) OVER ()`
window primitive: given the epsilon, the minimum cluster size and the whole
column of points of the query, it returns the column of cluster ids, `none`
meaning noise/unclustered. -/
def DbscanFn : Type := ℚ → Nat → List (ℚ × ℚ) → List (Option ℤ)

/-- A row of the clustering query output: `CellID, X_centroid, Y_centroid,
cluster_num`. -/
structure ClusterRow where
  CellID : Nat
  X_centroid : ℚ
  Y_centroid : ℚ
  cluster_num : Option ℤ
deriving DecidableEq

/-- The `ORDER BY cluster_num` comparison: ascending, `NULL` first. -/
def clusterNumLE (a b : Option ℤ) : Bool :=
  match a, b with
  | none, _ => true
  | some _, none => false
  | some x, some y => decide (x ≤ y)

/-- The clustering query rows before ordering: each row of the `cells` CTE
paired positionally with the entry of the window-function column
`ST_CLUSTERDBSCAN(p, 20, 10) OVER ()`. -/
def clustering_rows (dbscan : DbscanFn) (table : List Cell) : List ClusterRow :=
  ((clustering_cells table).zip (dbscan 20 10 (clustering_points table))).map
    fun ck => ⟨ck.1.CellID, ck.1.X_centroid, ck.1.Y_centroid, ck.2⟩

/-- The full clustering query: the rows of `clustering_rows` ordered by
`cluster_num`. -/
def clusteringQuery (dbscan : DbscanFn) (table : List Cell) : List ClusterRow :=
  (clustering_rows dbscan table).mergeSort fun r1 r2 =>
    clusterNumLE r1.cluster_num r2.cluster_num

/-! ### The local pipeline (cells of the notebook, in order)

The notebook is a straight-line script; each externally visible action is
one step.  The step records the destination table passed in its job
configuration (`none` when no configuration is passed) and the tables its
SQL reads from. -/

/-- The kinds of externally visible steps the notebook performs. -/
inductive StepKind where
  | authenticate
  | createDataset
  | submitQuery
  | readGbq
deriving DecidableEq

/-- One externally visible step of the notebook, as coded. -/
structure PipelineStep where
  kind : StepKind
  destinationTable : Option String
  readsTables : List String
deriving DecidableEq

/-- The public source table. -/
def baseTable : String := "isb-cgc-bq.HTAN.imaging_level4_HMS_mel_mask_current"

/-- The table name the notebook text refers to for the materialized pair
table, `{project}.temp15432.Melanoma_CyCIF_HTA7_1_3_points_within_20um`
with `project_id = "isb-cgc-outreach"`. -/
def proximityResultTable : String :=
  "isb-cgc-outreach.temp15432.Melanoma_CyCIF_HTA7_1_3_points_within_20um"

/-- Google authentication (notebook section 3). -/
def authStep : PipelineStep := ⟨.authenticate, none, []⟩

/-- The classification query, retrieved with `pandas_gbq.read_gbq`. -/
def classificationStep : PipelineStep := ⟨.readGbq, none, [baseTable]⟩

/-- `client.create_dataset` for dataset `temp15432` (`exists_ok = True`). -/
def createDatasetStep : PipelineStep := ⟨.createDataset, none, []⟩

/-- The submission of the proximity query via `client.query(query)`.  In the
source cell the `destination_table` and `job_config` assignments are
commented out, and `client.query` is called with the query string alone, so
no destination table and no write disposition is passed. -/
def proximitySubmitStep : PipelineStep := ⟨.submitQuery, none, [baseTable]⟩

/-- The `SELECT * ... LIMIT 10` preview of the pair table, via `read_gbq`. -/
def previewStep : PipelineStep := ⟨.readGbq, none, [proximityResultTable]⟩

/-- The aggregation query, retrieved with `pandas_gbq.read_gbq`. -/
def aggregationStep : PipelineStep := ⟨.readGbq, none, [proximityResultTable]⟩

/-- The clustering query, retrieved with `pandas_gbq.read_gbq`. -/
def clusteringStep : PipelineStep := ⟨.readGbq, none, [baseTable]⟩

/-- The straight-line sequence of steps of the notebook, in cell order. -/
def pipeline : List PipelineStep :=
  [authStep, classificationStep, createDatasetStep, proximitySubmitStep,
   previewStep, aggregationStep, clusteringStep]

/-- Executing the notebook cells in order against an external service: each
step either succeeds or the whole run stops with the error of the service.
The notebook contains no try/except, no retry and no error transformation,
so the composition is the plain sequential bind of the `Except` monad. -/
def runPipeline (service : PipelineStep → Except String Unit) :
    Except String Unit :=
  pipeline.foldlM (fun _ step => service step) ()

/-! ### Concrete inputs used to instantiate the theorems -/

/-- A concrete, computable stand-in for the external distance function:
the taxicab distance on the plane.  It is symmetric and vanishes on
identical points, the two properties the theorems assume of
`ST_Distance`. -/
def demoDist : Dist := fun p q => (p.1 - q.1) ^ 2 + (p.2 - q.2) ^ 2

/-- A cell inside the rectangle whose markers pass the thresholds. -/
def demoCellA : Cell := ⟨1, 23080, 9620, 4000, 8000, 600, "HTA7_1_3"⟩

/-- A second in-rectangle cell passing the thresholds, close to
`demoCellA`. -/
def demoCellB : Cell := ⟨2, 23081, 9620, 4000, 8000, 600, "HTA7_1_3"⟩

/-- A cell of `HTA7_1_3` outside the rectangle whose markers pass the
thresholds. -/
def demoCellOut : Cell := ⟨3, 100, 200, 4000, 8000, 600, "HTA7_1_3"⟩

/-- A cell with the same marker values as `demoCellA` but different id,
coordinates and biospecimen. -/
def demoCellA2 : Cell := ⟨99, 7, 8, 4000, 8000, 600, "HTA7_2_1"⟩

/-- A small concrete source table. -/
def demoTable : List Cell := [demoCellA, demoCellB, demoCellOut]

/-- A concrete, computable stand-in for the external window clustering
function: every point is assigned cluster `0`.  Like any window function it
returns one value per input row. -/
def demoDbscan : DbscanFn := fun _ _ pts => pts.map fun _ => some 0

/-- A concrete external service whose authentication step fails. -/
def demoService : PipelineStep → Except String Unit := fun s =>
  if s.kind = StepKind.authenticate then Except.error "authentication failed"
  else Except.ok ()

/-! ### Helper lemmas -/

/-- Membership characterization of the proximity-query output: a row is
emitted exactly for the pairs of `HTA7_1_3` cells whose rescaled points are
within the distance threshold. -/
theorem mem_proximityQuery (dist : Dist) (table : List Cell) (row : PairRow) :
    row ∈ proximityQuery dist table ↔
      ∃ c1 ∈ table, ∃ c2 ∈ table,
        c1.HTAN_Biospecimen_ID = "HTA7_1_3" ∧
        c2.HTAN_Biospecimen_ID = "HTA7_1_3" ∧
        dist (scaledPoint c1) (scaledPoint c2) ≤ distanceThreshold ∧
        row = mkPairRow dist (geoCell c1) (geoCell c2) := by
  simp only [proximityQuery, geodat, List.mem_flatMap, List.mem_map,
    List.mem_filter, ST_DWithin, decide_eq_true_eq]
  constructor
  · rintro ⟨t1, ⟨c1, ⟨hc1m, hb1⟩, rfl⟩, t2, ⟨⟨c2, ⟨hc2m, hb2⟩, rfl⟩, hd⟩, hrow⟩
    exact ⟨c1, hc1m, c2, hc2m, hb1, hb2, hd, hrow.symm⟩
  · rintro ⟨c1, hc1, c2, hc2, hb1, hb2, hd, rfl⟩
    exact ⟨geoCell c1, ⟨c1, ⟨hc1, hb1⟩, rfl⟩,
      geoCell c2, ⟨⟨c2, ⟨hc2, hb2⟩, rfl⟩, hd⟩, rfl⟩

/-- `demoDist` is symmetric. -/
theorem demoDist_symm : ∀ p q, demoDist p q = demoDist q p := by
  intro p q
  unfold demoDist
  ring

/-- `demoDist` vanishes on identical points. -/
theorem demoDist_refl : ∀ p, demoDist p p = 0 := by
  intro p
  unfold demoDist
  ring

/-- `demoDbscan` returns one value per input row. -/
theorem demoDbscan_length :
    ∀ eps minPts pts, (demoDbscan eps minPts pts).length = pts.length :=
  fun _ _ pts => List.length_map pts _

/-- The ids of `demoTable` are distinct. -/
theorem demoTable_nodup_ids : (demoTable.map Cell.CellID).Nodup := by
  simp [demoTable, demoCellA, demoCellB, demoCellOut]

/-- `demoCellA` belongs to `demoTable`. -/
theorem demoCellA_mem : demoCellA ∈ demoTable := by
  simp [demoTable]

/-- `demoCellOut` belongs to `demoTable`. -/
theorem demoCellOut_mem : demoCellOut ∈ demoTable := by
  simp [demoTable]

/-- `demoCellA` lies inside the rectangle. -/
theorem demoCellA_inRect : inRectCell demoCellA := by
  norm_num [inRectCell, demoCellA]

/-- `demoCellA` passes the marker thresholds. -/
theorem demoCellA_tumor : tumorMarkersHold demoCellA := by
  norm_num [tumorMarkersHold, demoCellA]

/-- `demoCellOut` passes the marker thresholds. -/
theorem demoCellOut_tumor : tumorMarkersHold demoCellOut := by
  norm_num [tumorMarkersHold, demoCellOut]

/-- `demoCellOut` lies outside the rectangle. -/
theorem demoCellOut_notInRect : ¬ inRectCell demoCellOut := by
  norm_num [inRectCell, demoCellOut]

/-- `demoCellA` and `demoCellOut` are different records. -/
theorem demoCellA_ne_out : demoCellA ≠ demoCellOut := by
  simp [demoCellA, demoCellOut]

/-- The rescaled points of `demoCellA` and `demoCellOut` are within the
distance threshold for `demoDist`. -/
theorem demo_near :
    demoDist (scaledPoint demoCellA) (scaledPoint demoCellOut) ≤
      distanceThreshold := by
  norm_num [demoDist, scaledPoint, ST_GeogPoint, demoCellA, demoCellOut,
    distanceThreshold]

/-- The label of the proximity-query CTE is "Tumor" exactly when the marker
thresholds hold. -/
theorem celltype_proximity_eq_tumor_iff (c : Cell) :
    celltype_proximity c = "Tumor" ↔ tumorMarkersHold c := by
  unfold celltype_proximity tumorMarkersHold
  by_cases h : c.SOX10_cellRingMask > 3704.5 ∧
      (c.S100B_cellRingMask > 7589.48 ∨ c.CD63_cellRingMask > 570.68)
  · rw [if_pos h]; exact iff_of_true rfl h
  · rw [if_neg h]; exact iff_of_false (by decide) h

/-- The label of the classification query is "Tumor" exactly when the marker
thresholds hold. -/
theorem celltype_classification_eq_tumor_iff (c : Cell) :
    celltype_classification c = "Tumor" ↔ tumorMarkersHold c := by
  unfold celltype_classification tumorMarkersHold
  by_cases h : c.SOX10_cellRingMask > 3704.5 ∧
      (c.S100B_cellRingMask > 7589.48 ∨ c.CD63_cellRingMask > 570.68)
  · rw [if_pos h]; exact iff_of_true rfl h
  · rw [if_neg h]; exact iff_of_false (by decide) h

/-- The label of the classification query is "Other" exactly when the marker
thresholds fail. -/
theorem celltype_classification_eq_other_iff (c : Cell) :
    celltype_classification c = "Other" ↔ ¬ tumorMarkersHold c := by
  unfold celltype_classification tumorMarkersHold
  by_cases h : c.SOX10_cellRingMask > 3704.5 ∧
      (c.S100B_cellRingMask > 7589.48 ∨ c.CD63_cellRingMask > 570.68)
  · rw [if_pos h]; exact iff_of_false (by decide) (not_not_intro h)
  · rw [if_neg h]; exact iff_of_true rfl h

/-- When the `CellID` column of the table has no duplicates, a `CellID`
value determines the row. -/
theorem cellID_inj {table : List Cell} (hnd : (table.map Cell.CellID).Nodup)
    {x y : Cell} (hx : x ∈ table) (hy : y ∈ table)
    (h : x.CellID = y.CellID) : x = y := by
  rcases eq_or_ne x y with rfl | hne
  · rfl
  · exact absurd h (List.Pairwise.forall
      (by intro a b hab; exact fun he => hab he.symm)
      (List.pairwise_map.mp hnd) hx hy hne)

/-- Counting over a flat map is the sum of the inner counts. -/
theorem countP_flatMap {α β : Type} (p : β → Bool) (l : List α)
    (f : α → List β) :
    (l.flatMap f).countP p = (l.map fun a => (f a).countP p).sum := by
  induction l with
  | nil => rfl
  | cons a l ih => simp [List.countP_append, ih]

/-- A sum over a list without duplicates in which at most one element
contributes. -/
theorem sum_map_eq_of_nodup {α : Type} (l : List α) (g : α → Nat) (a : α)
    (hnd : l.Nodup) (ha : a ∈ l) (hz : ∀ b ∈ l, b ≠ a → g b = 0) :
    (l.map g).sum = g a := by
  induction l with
  | nil => cases ha
  | cons x l ih =>
    rcases List.mem_cons.mp ha with rfl | hal
    · have hzero : (l.map g).sum = 0 := by
        apply List.sum_eq_zero
        rintro n hn
        rcases List.mem_map.mp hn with ⟨b, hb, rfl⟩
        exact hz b (List.mem_cons_of_mem _ hb)
          fun hba => (List.nodup_cons.mp hnd).1 (hba ▸ hb)
      simp [hzero]
    · have hx : g x = 0 :=
        hz x (List.mem_cons_self x l)
          fun hxa => (List.nodup_cons.mp hnd).1 (by rw [hxa]; exact hal)
      have := ih (List.nodup_cons.mp hnd).2 hal
        fun b hb => hz b (List.mem_cons_of_mem _ hb)
      simp [hx, this]

/-- Splitting a count along a second boolean predicate. -/
theorem countP_split {α : Type} (l : List α) (p q : α → Bool) :
    l.countP p =
      (l.countP fun a => p a && q a) + (l.countP fun a => p a && !q a) := by
  induction l with
  | nil => rfl
  | cons x l ih =>
    simp only [List.countP_cons, ih]
    by_cases hp : p x <;> by_cases hq : q x <;> simp [hp, hq] <;> omega

/-- The number of source rows the proximity query pairs with the cell `a`
with a "Tumor" label on the paired side: rows of `HTA7_1_3` whose rescaled
point is within the threshold of that of `a` and whose markers pass the
thresholds.  When `a` itself qualifies it is included. -/
def tumorNeighborCount (dist : Dist) (table : List Cell) (a : Cell) : Nat :=
  table.countP fun b => decide (b.HTAN_Biospecimen_ID = "HTA7_1_3" ∧
    dist (scaledPoint a) (scaledPoint b) ≤ distanceThreshold ∧
    tumorMarkersHold b)

/-- Distinct `CellID` values make the `geodat` CTE duplicate-free. -/
theorem geodat_nodup {table : List Cell}
    (hnd : (table.map Cell.CellID).Nodup) : (geodat table).Nodup := by
  have hndt : table.Nodup := List.Nodup.of_map _ hnd
  refine List.Nodup.map_on ?_ (List.Nodup.filter _ hndt)
  intro x hx y hy hxy
  exact cellID_inj hnd (List.mem_of_mem_filter hx) (List.mem_of_mem_filter hy)
    (congrArg GeoCell.CellID hxy)

/-- The count the aggregation query computes for the group of the cell `a`
(before the `- 1`): over the pair table produced by the proximity query, the
grouped rows with `CellID = a.CellID` and `celltype_1 = "Tumor"` are exactly
as many as the `HTA7_1_3` rows near `a` whose markers pass the
thresholds. -/
theorem group_countP_eq (dist : Dist) (table : List Cell) (a : Cell)
    (hnd : (table.map Cell.CellID).Nodup) (ha : a ∈ table)
    (hbio : a.HTAN_Biospecimen_ID = "HTA7_1_3")
    (hrect : inRectCell a) (htum : tumorMarkersHold a) :
    ((tumorCenterRows (proximityQuery dist table)).filter
        fun r => decide (r.CellID = a.CellID)).countP
      (fun r => decide (r.celltype_1 = "Tumor")) =
    tumorNeighborCount dist table a := by
  have h1 :
      ((tumorCenterRows (proximityQuery dist table)).filter
          fun r => decide (r.CellID = a.CellID)).countP
        (fun r => decide (r.celltype_1 = "Tumor")) =
      (proximityQuery dist table).countP fun row =>
        decide (row.CellID = a.CellID) && decide (row.celltype = "Tumor") &&
        decide (inRectPair row) && decide (row.celltype_1 = "Tumor") := by
    simp only [tumorCenterRows, cellp, List.countP_filter, List.countP_map]
    apply List.countP_congr
    intro row hrow
    simp only [Function.comp, Bool.and_eq_true, decide_eq_true_eq]
    tauto
  rw [h1]
  simp only [proximityQuery]
  rw [countP_flatMap]
  have hmem : geoCell a ∈ geodat table := by
    unfold geodat
    exact List.mem_map_of_mem _ (List.mem_filter.mpr ⟨ha, by simpa using hbio⟩)
  have hz : ∀ t1 ∈ geodat table, t1 ≠ geoCell a →
      (((geodat table).filter fun t2 =>
          ST_DWithin dist t1.p t2.p distanceThreshold).map
        fun t2 => mkPairRow dist t1 t2).countP (fun row =>
          decide (row.CellID = a.CellID) && decide (row.celltype = "Tumor") &&
          decide (inRectPair row) && decide (row.celltype_1 = "Tumor")) = 0 := by
    intro t1 ht1 hne
    rw [List.countP_eq_zero]
    rintro row hrow
    rcases List.mem_map.mp hrow with ⟨t2, ht2, rfl⟩
    have hid : t1.CellID ≠ a.CellID := by
      intro hcid
      apply hne
      unfold geodat at ht1
      rcases List.mem_map.mp ht1 with ⟨c, hc, rfl⟩
      have hc' : c ∈ table := List.mem_of_mem_filter hc
      rw [cellID_inj hnd hc' ha hcid]
    simp only [mkPairRow, Bool.and_eq_true, decide_eq_true_eq]
    intro hfalse
    exact hid (by tauto)
  rw [sum_map_eq_of_nodup _ _ (geoCell a) (geodat_nodup hnd) hmem hz]
  rw [List.countP_map, List.countP_filter]
  unfold geodat
  rw [List.countP_map, List.countP_filter]
  unfold tumorNeighborCount
  apply List.countP_congr
  intro b hb
  obtain ⟨hr1, hr2, hr3, hr4⟩ := hrect
  simp only [Function.comp, mkPairRow, geoCell, ST_DWithin, inRectPair,
    Bool.and_eq_true, decide_eq_true_eq, celltype_proximity_eq_tumor_iff]
  simp only [htum, hr1, hr2, hr3, hr4, eq_self_iff_true, true_and, and_true]
  tauto

/-- When the table has duplicate-free ids and the external distance function
vanishes on identical points, the aggregation query output contains, for
each "Tumor" cell `a` of `HTA7_1_3` inside the rectangle, the row
`(a.CellID, tumorNeighborCount dist table a - 1)`. -/
theorem aggregation_result (dist : Dist) (table : List Cell) (a : Cell)
    (hrefl : ∀ p, dist p p = 0)
    (hnd : (table.map Cell.CellID).Nodup) (ha : a ∈ table)
    (hbio : a.HTAN_Biospecimen_ID = "HTA7_1_3")
    (hrect : inRectCell a) (htum : tumorMarkersHold a) :
    (a.CellID, (tumorNeighborCount dist table a : ℤ) - 1) ∈
      aggregationQuery (proximityQuery dist table) := by
  have hself : mkPairRow dist (geoCell a) (geoCell a) ∈
      proximityQuery dist table := by
    rw [mem_proximityQuery]
    exact ⟨a, ha, a, ha, hbio, hbio,
      by rw [hrefl]; norm_num [distanceThreshold], rfl⟩
  have hproj : (⟨a.CellID, celltype_proximity a, a.CellID,
      celltype_proximity a⟩ : CellpRow) ∈
      tumorCenterRows (proximityQuery dist table) := by
    unfold tumorCenterRows cellp
    apply List.mem_filter.mpr
    refine ⟨List.mem_map_of_mem _ (List.mem_filter.mpr ⟨hself, ?_⟩), ?_⟩
    · simp only [mkPairRow, geoCell, decide_eq_true_eq, inRectPair]
      exact hrect
    · simp [celltype_proximity_eq_tumor_iff, htum]
  have hcid : a.CellID ∈
      ((tumorCenterRows (proximityQuery dist table)).map
        CellpRow.CellID).dedup :=
    List.mem_dedup.mpr (List.mem_map_of_mem _ hproj)
  unfold aggregationQuery
  have hm := List.mem_map_of_mem (fun cid =>
    (cid, (((tumorCenterRows (proximityQuery dist table)).filter
        fun r => decide (r.CellID = cid)).countP
      (fun r => decide (r.celltype_1 = "Tumor")) : ℤ) - 1)) hcid
  simpa only [group_countP_eq dist table a hnd ha hbio hrect htum] using hm

/-- Sequentially folding an `Except` action over a list stops at the first
error and returns it unchanged. -/
theorem foldlM_except_error {α : Type} (service : α → Except String Unit) :
    ∀ (pre : List α) (s : α) (post : List α) (e : String),
      (∀ t ∈ pre, service t = Except.ok ()) → service s = Except.error e →
      List.foldlM (fun _ step => service step) () (pre ++ s :: post) =
        Except.error e := by
  intro pre
  induction pre with
  | nil =>
    intro s post e _ herr
    simp only [List.nil_append, List.foldlM_cons]
    rw [herr]
    rfl
  | cons x pre ih =>
    intro s post e hok herr
    simp only [List.cons_append, List.foldlM_cons]
    rw [hok x (List.mem_cons_self x pre)]
    exact ih s post e (fun t ht => hok t (List.mem_cons_of_mem _ ht)) herr

/-! ### Claim theorems -/

/-- C1: evaluated on the pipeline as coded, the table
`temp15432.Melanoma_CyCIF_HTA7_1_3_points_within_20um` is read by the
preview and aggregation steps, yet the proximity submission passes no
destination table and no step of the pipeline names that table (or any
table) as a destination: the claimed persistence with overwrite-on-rerun is
absent from the code, whose `destination_table` and `job_config` lines are
commented out. -/
theorem proximity_table_read_but_never_written :
    (aggregationStep ∈ pipeline ∧
      proximityResultTable ∈ aggregationStep.readsTables) ∧
    (previewStep ∈ pipeline ∧
      proximityResultTable ∈ previewStep.readsTables) ∧
    proximitySubmitStep.destinationTable = none ∧
    pipeline.map PipelineStep.destinationTable =
      [none, none, none, none, none, none, none] := by
  decide

/-- C2: the classification query returns exactly the records of biospecimen
HTA7_1_3 whose coordinates lie strictly inside the rectangle
(23076.9, 9615.3)-(30384.6, 15000), and the label of a record is "Tumor"
precisely when `SOX10_cellRingMask > 3704.5` and
(`S100B_cellRingMask > 7589.48` or `CD63_cellRingMask > 570.68`), and
"Other" otherwise. -/
theorem classificationQuery_characterization (table : List Cell) :
    (∀ r : LabeledCell, r ∈ classificationQuery table ↔
      ∃ c ∈ table, c.HTAN_Biospecimen_ID = "HTA7_1_3" ∧
        23076.9 < c.X_centroid ∧ c.X_centroid < 30384.6 ∧
        9615.3 < c.Y_centroid ∧ c.Y_centroid < 15000 ∧
        r = ⟨c.CellID, c.X_centroid, c.Y_centroid,
          celltype_classification c⟩) ∧
    ∀ c : Cell,
      (celltype_classification c = "Tumor" ↔
        c.SOX10_cellRingMask > 3704.5 ∧
          (c.S100B_cellRingMask > 7589.48 ∨ c.CD63_cellRingMask > 570.68)) ∧
      (celltype_classification c = "Other" ↔
        ¬ (c.SOX10_cellRingMask > 3704.5 ∧
          (c.S100B_cellRingMask > 7589.48 ∨ c.CD63_cellRingMask > 570.68))) := by
  constructor
  · intro r
    simp only [classificationQuery, classification_cells, List.mem_filter,
      List.mem_map, decide_eq_true_eq]
    constructor
    · rintro ⟨⟨c, ⟨hc, hb⟩, rfl⟩, h1, h2, h3, h4⟩
      exact ⟨c, hc, hb, h1, h2, h3, h4, rfl⟩
    · rintro ⟨c, hc, hb, h1, h2, h3, h4, rfl⟩
      exact ⟨⟨c, ⟨hc, hb⟩, rfl⟩, h1, h2, h3, h4⟩
  · intro c
    exact ⟨celltype_classification_eq_tumor_iff c,
      celltype_classification_eq_other_iff c⟩

/-- C5: the proximity query emits a row exactly for the pairs of records of
biospecimen HTA7_1_3 whose points, built by dividing both pixel coordinates
by 368570, are within distance 9.29324770787722 of each other; in
particular every pair satisfying the predicate appears in the output. -/
theorem proximityQuery_pair_iff_within_threshold (dist : Dist)
    (table : List Cell) (row : PairRow) :
    row ∈ proximityQuery dist table ↔
      ∃ c1 ∈ table, ∃ c2 ∈ table,
        c1.HTAN_Biospecimen_ID = "HTA7_1_3" ∧
        c2.HTAN_Biospecimen_ID = "HTA7_1_3" ∧
        dist (ST_GeogPoint (c1.X_centroid / 368570) (c1.Y_centroid / 368570))
            (ST_GeogPoint (c2.X_centroid / 368570) (c2.Y_centroid / 368570)) ≤
          9.29324770787722 ∧
        row = mkPairRow dist (geoCell c1) (geoCell c2) :=
  mem_proximityQuery dist table row

/-- C8: the label is a pure function of the three marker columns: the
classification query and the proximity query compute the same label
function, and two cells with equal `SOX10_cellRingMask`,
`S100B_cellRingMask` and `CD63_cellRingMask` values receive the same label
in both queries, independent of every other attribute. -/
theorem celltype_pure_function_of_markers :
    (∀ c : Cell, celltype_classification c = celltype_proximity c) ∧
    ∀ c d : Cell, c.SOX10_cellRingMask = d.SOX10_cellRingMask →
      c.S100B_cellRingMask = d.S100B_cellRingMask →
      c.CD63_cellRingMask = d.CD63_cellRingMask →
      celltype_classification c = celltype_classification d ∧
      celltype_proximity c = celltype_proximity d := by
  constructor
  · intro c
    rfl
  · intro c d h1 h2 h3
    have hcl : celltype_classification c = celltype_classification d := by
      unfold celltype_classification
      rw [h1, h2, h3]
    exact ⟨hcl, hcl⟩

/-- Witness for C8 at concrete cells that agree on the three marker columns
and on nothing else. -/
theorem celltype_pure_function_of_markers_witness :
    celltype_classification demoCellA = celltype_classification demoCellA2 ∧
    celltype_proximity demoCellA = celltype_proximity demoCellA2 :=
  celltype_pure_function_of_markers.2 demoCellA demoCellA2 rfl rfl rfl

/-- C9: no error handling is implemented locally: if every step before some
step succeeds and that step fails with an error of the external service,
the whole pipeline run returns exactly that error, uncaught, unretried and
untransformed. -/
theorem pipeline_propagates_first_error
    (service : PipelineStep → Except String Unit) (pre : List PipelineStep)
    (s : PipelineStep) (post : List PipelineStep) (e : String)
    (hsplit : pipeline = pre ++ s :: post)
    (hok : ∀ t ∈ pre, service t = Except.ok ())
    (herr : service s = Except.error e) :
    runPipeline service = Except.error e := by
  unfold runPipeline
  rw [hsplit]
  exact foldlM_except_error service pre s post e hok herr

/-- Witness for C9: a service failing at authentication makes the whole run
return that very error. -/
theorem pipeline_propagates_first_error_witness :
    runPipeline demoService = Except.error "authentication failed" :=
  pipeline_propagates_first_error demoService [] authStep
    [classificationStep, createDatasetStep, proximitySubmitStep, previewStep,
      aggregationStep, clusteringStep] "authentication failed" rfl
    (fun t ht => absurd ht (List.not_mem_nil t)) rfl

/-- C4: the materialized proximity relation is symmetric as a set of
directed pairs — for every emitted row pairing a cell with another, the
reversed row is also emitted — and every `HTA7_1_3` cell is paired with
itself at distance zero.  The external distance function is assumed
symmetric and zero on identical points. -/
theorem proximityQuery_symmetric_with_self_pairs (dist : Dist)
    (table : List Cell) (hsym : ∀ p q, dist p q = dist q p)
    (hrefl : ∀ p, dist p p = 0) :
    (∀ row ∈ proximityQuery dist table,
      swapRow row ∈ proximityQuery dist table) ∧
    ∀ c ∈ table, c.HTAN_Biospecimen_ID = "HTA7_1_3" →
      mkPairRow dist (geoCell c) (geoCell c) ∈ proximityQuery dist table ∧
      (mkPairRow dist (geoCell c) (geoCell c)).Distance = 0 := by
  constructor
  · intro row hrow
    rw [mem_proximityQuery] at hrow ⊢
    obtain ⟨c1, h1, c2, h2, hb1, hb2, hd, rfl⟩ := hrow
    refine ⟨c2, h2, c1, h1, hb2, hb1, ?_, ?_⟩
    · rw [hsym (scaledPoint c2) (scaledPoint c1)]
      exact hd
    · simp only [swapRow, mkPairRow, PairRow.mk.injEq, and_true, true_and,
        and_self]
      exact hsym _ _
  · intro c hc hb
    refine ⟨?_, hrefl _⟩
    rw [mem_proximityQuery]
    exact ⟨c, hc, c, hc, hb, hb,
      by rw [hrefl]; norm_num [distanceThreshold], rfl⟩

/-- Witness for C4: the concrete cell `demoCellA` is paired with itself at
distance zero in the proximity output over `demoTable`. -/
theorem proximityQuery_symmetric_with_self_pairs_witness :
    mkPairRow demoDist (geoCell demoCellA) (geoCell demoCellA) ∈
      proximityQuery demoDist demoTable ∧
    (mkPairRow demoDist (geoCell demoCellA) (geoCell demoCellA)).Distance =
      0 :=
  (proximityQuery_symmetric_with_self_pairs demoDist demoTable demoDist_symm
    demoDist_refl).2 demoCellA demoCellA_mem rfl

/-- C3: over a table with duplicate-free ids, the aggregation query reports,
for a "Tumor" cell `a` of `HTA7_1_3` inside its rectangle, exactly the
number of OTHER records paired with it in the proximity table that carry the
"Tumor" label: the `- 1` of the query removes the self-pair, so `a` itself
is not counted.  The result is retrieved locally with `read_gbq`. -/
theorem aggregationQuery_counts_tumor_neighbors_excluding_self
    (dist : Dist) (table : List Cell) (a : Cell)
    (hrefl : ∀ p, dist p p = 0)
    (hnd : (table.map Cell.CellID).Nodup) (ha : a ∈ table)
    (hbio : a.HTAN_Biospecimen_ID = "HTA7_1_3")
    (hrect : inRectCell a) (htum : tumorMarkersHold a) :
    ((a.CellID,
      (table.countP fun b => decide (¬ b = a ∧
        b.HTAN_Biospecimen_ID = "HTA7_1_3" ∧
        dist (scaledPoint a) (scaledPoint b) ≤ distanceThreshold ∧
        tumorMarkersHold b) : ℤ)) ∈
      aggregationQuery (proximityQuery dist table)) ∧
    aggregationStep.kind = StepKind.readGbq := by
  refine ⟨?_, rfl⟩
  have hsplit := countP_split table
    (fun b => decide (b.HTAN_Biospecimen_ID = "HTA7_1_3" ∧
      dist (scaledPoint a) (scaledPoint b) ≤ distanceThreshold ∧
      tumorMarkersHold b))
    (fun b => decide (b = a))
  have hone : (table.countP fun b =>
      (decide (b.HTAN_Biospecimen_ID = "HTA7_1_3" ∧
        dist (scaledPoint a) (scaledPoint b) ≤ distanceThreshold ∧
        tumorMarkersHold b)) && decide (b = a)) = 1 := by
    have hcongr : (table.countP fun b =>
        (decide (b.HTAN_Biospecimen_ID = "HTA7_1_3" ∧
          dist (scaledPoint a) (scaledPoint b) ≤ distanceThreshold ∧
          tumorMarkersHold b)) && decide (b = a)) =
        table.countP fun b => b == a := by
      apply List.countP_congr
      intro x hx
      simp only [Bool.and_eq_true, decide_eq_true_eq, beq_iff_eq]
      constructor
      · rintro ⟨-, h⟩
        exact h
      · rintro rfl
        exact ⟨⟨hbio, by rw [hrefl]; norm_num [distanceThreshold], htum⟩, rfl⟩
    rw [hcongr]
    exact List.count_eq_one_of_mem (List.Nodup.of_map _ hnd) ha
  have hother : (table.countP fun b =>
      (decide (b.HTAN_Biospecimen_ID = "HTA7_1_3" ∧
        dist (scaledPoint a) (scaledPoint b) ≤ distanceThreshold ∧
        tumorMarkersHold b)) && !(decide (b = a))) =
      table.countP fun b => decide (¬ b = a ∧
        b.HTAN_Biospecimen_ID = "HTA7_1_3" ∧
        dist (scaledPoint a) (scaledPoint b) ≤ distanceThreshold ∧
        tumorMarkersHold b) := by
    apply List.countP_congr
    intro x hx
    simp only [Bool.and_eq_true, Bool.not_eq_eq_eq_not, Bool.not_true,
      decide_eq_true_eq, decide_eq_false_iff_not]
    tauto
  have hcount : (tumorNeighborCount dist table a : ℤ) - 1 =
      (table.countP fun b => decide (¬ b = a ∧
        b.HTAN_Biospecimen_ID = "HTA7_1_3" ∧
        dist (scaledPoint a) (scaledPoint b) ≤ distanceThreshold ∧
        tumorMarkersHold b) : ℤ) := by
    unfold tumorNeighborCount
    rw [hsplit, hone, ← hother]
    push_cast
    ring
  rw [← hcount]
  exact aggregation_result dist table a hrefl hnd ha hbio hrect htum

/-- Witness for C3 at the concrete table: the tumor cell `demoCellA` gets
the count of its other tumor neighbors. -/
theorem aggregationQuery_counts_tumor_neighbors_excluding_self_witness :
    (demoCellA.CellID,
      (demoTable.countP fun b => decide (¬ b = demoCellA ∧
        b.HTAN_Biospecimen_ID = "HTA7_1_3" ∧
        demoDist (scaledPoint demoCellA) (scaledPoint b) ≤ distanceThreshold ∧
        tumorMarkersHold b) : ℤ)) ∈
      aggregationQuery (proximityQuery demoDist demoTable) :=
  (aggregationQuery_counts_tumor_neighbors_excluding_self demoDist demoTable
    demoCellA demoDist_refl demoTable_nodup_ids demoCellA_mem rfl
    demoCellA_inRect demoCellA_tumor).1

/-- C10: the rectangle restriction of the aggregation query applies only to
the center cell of each pair: a tumor neighbor `b` outside the rectangle
still contributes — removing `b` from the table lowers the reported group
count of the in-rectangle tumor cell `a` by exactly one. -/
theorem neighbor_outside_rectangle_still_counted
    (dist : Dist) (table : List Cell) (a b : Cell)
    (hrefl : ∀ p, dist p p = 0)
    (hnd : (table.map Cell.CellID).Nodup)
    (ha : a ∈ table) (hb : b ∈ table) (hab : a ≠ b)
    (hbioa : a.HTAN_Biospecimen_ID = "HTA7_1_3")
    (hbiob : b.HTAN_Biospecimen_ID = "HTA7_1_3")
    (hrecta : inRectCell a) (hrectb : ¬ inRectCell b)
    (htuma : tumorMarkersHold a) (htumb : tumorMarkersHold b)
    (hnear : dist (scaledPoint a) (scaledPoint b) ≤ distanceThreshold) :
    ((a.CellID, (tumorNeighborCount dist table a : ℤ) - 1) ∈
        aggregationQuery (proximityQuery dist table)) ∧
    ((a.CellID, (tumorNeighborCount dist (table.erase b) a : ℤ) - 1) ∈
        aggregationQuery (proximityQuery dist (table.erase b))) ∧
    tumorNeighborCount dist table a =
      tumorNeighborCount dist (table.erase b) a + 1 := by
  have hnd' : ((table.erase b).map Cell.CellID).Nodup :=
    List.Nodup.sublist ((List.erase_sublist b table).map Cell.CellID) hnd
  have ha' : a ∈ table.erase b := (List.mem_erase_of_ne hab).mpr ha
  refine ⟨aggregation_result dist table a hrefl hnd ha hbioa hrecta htuma,
    aggregation_result dist (table.erase b) a hrefl hnd' ha' hbioa hrecta
      htuma, ?_⟩
  unfold tumorNeighborCount
  rw [List.Perm.countP_eq _ (List.perm_cons_erase hb), List.countP_cons]
  rw [if_pos]
  simp only [decide_eq_true_eq]
  exact ⟨hbiob, hnear, htumb⟩

/-- Witness for C10: deleting the out-of-rectangle tumor cell `demoCellOut`
lowers the neighbor count of `demoCellA` by one. -/
theorem neighbor_outside_rectangle_still_counted_witness :
    tumorNeighborCount demoDist demoTable demoCellA =
      tumorNeighborCount demoDist (demoTable.erase demoCellOut) demoCellA +
        1 :=
  (neighbor_outside_rectangle_still_counted demoDist demoTable demoCellA
    demoCellOut demoDist_refl demoTable_nodup_ids demoCellA_mem
    demoCellOut_mem demoCellA_ne_out rfl rfl demoCellA_inRect
    demoCellOut_notInRect demoCellA_tumor demoCellOut_tumor demo_near).2.2

/-- Evaluation of the clustering `cells` CTE on the concrete table: the
out-of-rectangle cell is dropped. -/
theorem demo_clustering_cells :
    clustering_cells demoTable = [demoCellA, demoCellB] := by
  unfold clustering_cells demoTable
  simp only [List.filter_cons, List.filter_nil]
  norm_num [demoCellA, demoCellB, demoCellOut]

/-- Evaluation of the clustering point column on the concrete table. -/
theorem demo_clustering_points :
    clustering_points demoTable =
      [scaledPoint demoCellA, scaledPoint demoCellB] := by
  unfold clustering_points
  rw [demo_clustering_cells]
  rfl

/-- Evaluation of the clustering rows on the concrete table. -/
theorem demo_clustering_rows :
    clustering_rows demoDbscan demoTable =
      [⟨1, 23080, 9620, some 0⟩, ⟨2, 23081, 9620, some 0⟩] := by
  unfold clustering_rows
  rw [demo_clustering_cells, demo_clustering_points]
  rfl

/-- Evaluation of the `geodat` CTE on the concrete table: all three cells
belong to HTA7_1_3, so all three are kept. -/
theorem demo_geodat :
    geodat demoTable =
      [geoCell demoCellA, geoCell demoCellB, geoCell demoCellOut] := by
  unfold geodat demoTable
  simp only [List.filter_cons, List.filter_nil]
  norm_num [demoCellA, demoCellB, demoCellOut]

/-- C6 counterexample: on the concrete table, the point column the
clustering query hands to the window function is NOT the rescaled points of
all HTA7_1_3 records (the column the proximity query builds): the HTA7_1_3
cell `demoCellOut` is excluded by the rectangle and marker filters of the
clustering query. -/
theorem clustering_points_ne_proximity_points :
    clustering_points demoTable ≠ (geodat demoTable).map GeoCell.p := by
  intro h
  unfold clustering_points at h
  rw [demo_clustering_cells, demo_geodat] at h
  simp at h

/-- C6 (amended): the clustering query runs the density-based clustering
function — windowed over the whole query via `OVER ()` — on the rescaled
points (both coordinates divided by 368570) of exactly the HTA7_1_3 records
that lie inside the rectangle and pass the tumor-marker thresholds, and
each such record appears exactly once in its output, carrying a
`cluster_num` column. -/
theorem clusteringQuery_over_filtered_rescaled_points (dbscan : DbscanFn)
    (table : List Cell)
    (hlen : ∀ eps minPts pts, (dbscan eps minPts pts).length = pts.length) :
    clustering_points table =
      (table.filter fun c => decide (c.HTAN_Biospecimen_ID = "HTA7_1_3" ∧
        23076.9 < c.X_centroid ∧ c.X_centroid < 30384.6 ∧
        9615.3 < c.Y_centroid ∧ c.Y_centroid < 15000 ∧
        tumorMarkersHold c)).map
        (fun c => ST_GeogPoint (c.X_centroid / 368570)
          (c.Y_centroid / 368570)) ∧
    List.Perm
      ((clusteringQuery dbscan table).map
        fun r => (r.CellID, r.X_centroid, r.Y_centroid))
      ((clustering_cells table).map
        fun c => (c.CellID, c.X_centroid, c.Y_centroid)) := by
  constructor
  · rfl
  · unfold clusteringQuery
    refine ((List.mergeSort_perm (clustering_rows dbscan table) _).map
      _).trans ?_
    have hlen2 : (clustering_cells table).length ≤
        (dbscan 20 10 (clustering_points table)).length := by
      rw [hlen]
      unfold clustering_points
      rw [List.length_map]
    have hmap : (clustering_rows dbscan table).map
        (fun r => (r.CellID, r.X_centroid, r.Y_centroid)) =
        (clustering_cells table).map
          fun c => (c.CellID, c.X_centroid, c.Y_centroid) := by
      unfold clustering_rows
      rw [List.map_map]
      have hcomp : ((fun r : ClusterRow =>
            (r.CellID, r.X_centroid, r.Y_centroid)) ∘
          fun ck : Cell × Option ℤ =>
            (⟨ck.1.CellID, ck.1.X_centroid, ck.1.Y_centroid, ck.2⟩ :
              ClusterRow)) =
          (fun c : Cell => (c.CellID, c.X_centroid, c.Y_centroid)) ∘
            Prod.fst := rfl
      rw [hcomp, ← List.map_map, List.map_fst_zip _ _ hlen2]
    rw [hmap]

/-- Witness for the amended C6 at the concrete window function and
table. -/
theorem clusteringQuery_over_filtered_rescaled_points_witness :
    clustering_points demoTable =
      (demoTable.filter fun c =>
        decide (c.HTAN_Biospecimen_ID = "HTA7_1_3" ∧
          23076.9 < c.X_centroid ∧ c.X_centroid < 30384.6 ∧
          9615.3 < c.Y_centroid ∧ c.Y_centroid < 15000 ∧
          tumorMarkersHold c)).map
        (fun c => ST_GeogPoint (c.X_centroid / 368570)
          (c.Y_centroid / 368570)) :=
  (clusteringQuery_over_filtered_rescaled_points demoDbscan demoTable
    demoDbscan_length).1

/-- C7: every row of the clustering query output carries a cluster id that
is an integer or null, and that id is an entry of the column the window
function recomputes from the base table within the query; the step that
runs the query is a local retrieval reading only the base table, with no
destination table, so the assignment is never written to any remote
table. -/
theorem cluster_id_optional_recomputed_not_persisted (dbscan : DbscanFn)
    (table : List Cell) :
    (∀ row ∈ clusteringQuery dbscan table,
      row.cluster_num = none ∨ ∃ k : ℤ, row.cluster_num = some k) ∧
    (∀ row ∈ clusteringQuery dbscan table,
      row.cluster_num ∈ dbscan 20 10 (clustering_points table)) ∧
    clusteringStep.kind = StepKind.readGbq ∧
    clusteringStep.destinationTable = none ∧
    clusteringStep.readsTables = [baseTable] := by
  refine ⟨?_, ?_, rfl, rfl, rfl⟩
  · intro row _
    cases h : row.cluster_num with
    | none => exact Or.inl rfl
    | some k => exact Or.inr ⟨k, rfl⟩
  · intro row hrow
    unfold clusteringQuery at hrow
    rw [List.mem_mergeSort] at hrow
    unfold clustering_rows at hrow
    rcases List.mem_map.mp hrow with ⟨ck, hck, rfl⟩
    obtain ⟨c, k⟩ := ck
    exact (List.of_mem_zip hck).2

/-- Witness for C7: a concrete output row of the clustering query over the
concrete table carries a cluster id present in the recomputed window
column. -/
theorem cluster_id_optional_recomputed_not_persisted_witness :
    (⟨1, 23080, 9620, some 0⟩ : ClusterRow).cluster_num ∈
      demoDbscan 20 10 (clustering_points demoTable) :=
  (cluster_id_optional_recomputed_not_persisted demoDbscan demoTable).2.1
    ⟨1, 23080, 9620, some 0⟩ (by
      unfold clusteringQuery
      rw [List.mem_mergeSort, demo_clustering_rows]
      simp)

end HTANSpatial

